import Mathlib

/-!
Verification of the OMFG fork-synchronization core (`app/syncFork.js`).

The JavaScript source is shallowly embedded: dynamically-typed values are an
inductive `JSValue`, the Probot/octokit remote interface is an environment of
pre-determined responses, and every remote call a sync attempt performs is
recorded in an explicit call trace.  Fallible operations return `Except`.
-/

namespace OMFG

/-- A JavaScript value, as far as the configuration code inspects one.
Numbers are modelled as integers (the validator only ever asks `typeof`
and truthiness of them; NaN and non-integral floats are not distinguished
by any inspected code path). -/
inductive JSValue where
  | null
  | undefined
  | bool (b : Bool)
  | num (n : Int)
  | str (s : String)
  | arr (elems : List JSValue)
  | obj (fields : List (String × JSValue))

/-- JavaScript `typeof`.  Note `typeof null === "object"` and arrays are
`"object"` as well. -/
def typeofStr : JSValue → String
  | .null => "object"
  | .undefined => "undefined"
  | .bool _ => "boolean"
  | .num _ => "number"
  | .str _ => "string"
  | .arr _ => "object"
  | .obj _ => "object"

/-- JavaScript truthiness: `null`, `undefined`, `false`, `0` and `""` are
falsy; every array and object is truthy. -/
def truthy : JSValue → Bool
  | .null => false
  | .undefined => false
  | .bool b => b
  | .num n => n != 0
  | .str s => s != ""
  | .arr _ => true
  | .obj _ => true

/-- `Array.isArray`. -/
def isArrayB : JSValue → Bool
  | .arr _ => true
  | _ => false

/-- Strict comparison `v !== undefined`. -/
def isDefined : JSValue → Bool
  | .undefined => false
  | _ => true

/-- The values whose JS `typeof` is not `"object"`, together with `null`:
exactly the class the validator's non-object guard rejects.  Arrays are
excluded: `typeof [] === "object"` and arrays are truthy, so they pass the
guard in the source. -/
def isNonObjectValue : JSValue → Bool
  | .null => true
  | .undefined => true
  | .bool _ => true
  | .num _ => true
  | .str _ => true
  | .arr _ => false
  | .obj _ => false

/-- Property access `v.key`: `undefined` when absent or when the receiver has
no own properties of that name.  Object keys are assumed distinct, as they are
for objects produced by the YAML parser (which rejects duplicate mapping
keys); lookup takes the first match. -/
def getField (v : JSValue) (key : String) : JSValue :=
  match v with
  | .obj fields =>
    match fields.find? (fun p => p.1 == key) with
    | some p => p.2
    | none => .undefined
  | _ => .undefined

/-- `leadsWith pat s` holds when `s` starts with `pat`. -/
def leadsWith : List Char → List Char → Bool
  | [], _ => true
  | _ :: _, [] => false
  | p :: ps, s :: ss => p == s && leadsWith ps ss

/-- Does `s` contain `pat` as a contiguous run (JavaScript
`String.prototype.includes`)? -/
def hasPat (pat : List Char) : List Char → Bool
  | [] => leadsWith pat []
  | c :: rest => leadsWith pat (c :: rest) || hasPat pat rest

/-- JavaScript `s.includes(pat)`. -/
def jsIncludes (s pat : String) : Bool := hasPat pat.data s.data

/-- Result shape of `validateConfig`: `{ valid, errors }`. -/
structure ValidationResult where
  valid : Bool
  errors : List String
deriving Repr, DecidableEq

/-- `config.upstream.includes('/')`; in the source this member call is only
reached once the value is known to be a string. -/
def upstreamHasSlash : JSValue → Bool
  | .str s => jsIncludes s "/"
  | _ => false

/-- `validateConfig` from `app/syncFork.js`.  Mirrors the source: a guard
rejecting non-objects (by JS truthiness and `typeof`), then six independent
checks each pushing its own message, then `valid: errors.length === 0`. -/
def validateConfig (config : JSValue) : ValidationResult :=
  if !truthy config || typeofStr config != "object" then
    { valid := false, errors := ["Configuration must be an object"] }
  else
    let errors : List String := []
    let errors :=
      if typeofStr (getField config "auto_sync") != "boolean" then
        errors ++ ["auto_sync must be a boolean"]
      else errors
    let errors :=
      if !truthy (getField config "upstream") ||
          typeofStr (getField config "upstream") != "string" then
        errors ++ ["upstream must be a string in format \"owner/repo\""]
      else if !upstreamHasSlash (getField config "upstream") then
        errors ++ ["upstream must be in format \"owner/repo\""]
      else errors
    let errors :=
      if truthy (getField config "branches") &&
          !isArrayB (getField config "branches") then
        errors ++ ["branches must be an array"]
      else errors
    let errors :=
      if isDefined (getField config "create_pr") &&
          typeofStr (getField config "create_pr") != "boolean" then
        errors ++ ["create_pr must be a boolean"]
      else errors
    let errors :=
      if isDefined (getField config "pr_title") &&
          typeofStr (getField config "pr_title") != "string" then
        errors ++ ["pr_title must be a string"]
      else errors
    let errors :=
      if isDefined (getField config "pr_body") &&
          typeofStr (getField config "pr_body") != "string" then
        errors ++ ["pr_body must be a string"]
      else errors
    { valid := errors.isEmpty, errors := errors }

/-- Errors contributed by the `auto_sync` check alone. -/
def autoSyncErrs (config : JSValue) : List String :=
  if typeofStr (getField config "auto_sync") != "boolean" then
    ["auto_sync must be a boolean"]
  else []

/-- Errors contributed by the `upstream` check alone. -/
def upstreamErrs (config : JSValue) : List String :=
  if !truthy (getField config "upstream") ||
      typeofStr (getField config "upstream") != "string" then
    ["upstream must be a string in format \"owner/repo\""]
  else if !upstreamHasSlash (getField config "upstream") then
    ["upstream must be in format \"owner/repo\""]
  else []

/-- Errors contributed by the `branches` check alone. -/
def branchesErrs (config : JSValue) : List String :=
  if truthy (getField config "branches") &&
      !isArrayB (getField config "branches") then
    ["branches must be an array"]
  else []

/-- Errors contributed by the `create_pr` check alone. -/
def createPrErrs (config : JSValue) : List String :=
  if isDefined (getField config "create_pr") &&
      typeofStr (getField config "create_pr") != "boolean" then
    ["create_pr must be a boolean"]
  else []

/-- Errors contributed by the `pr_title` check alone. -/
def prTitleErrs (config : JSValue) : List String :=
  if isDefined (getField config "pr_title") &&
      typeofStr (getField config "pr_title") != "string" then
    ["pr_title must be a string"]
  else []

/-- Errors contributed by the `pr_body` check alone. -/
def prBodyErrs (config : JSValue) : List String :=
  if isDefined (getField config "pr_body") &&
      typeofStr (getField config "pr_body") != "string" then
    ["pr_body must be a string"]
  else []

/-- The six error lists concatenated in source order. -/
def allFieldErrs (config : JSValue) : List String :=
  autoSyncErrs config ++ upstreamErrs config ++ branchesErrs config ++
    createPrErrs config ++ prTitleErrs config ++ prBodyErrs config

/-! ## Error shape of remote-fetch failures and `loadConfig` -/

/-- An octokit request failure: an HTTP status (absent for non-HTTP failures)
and a message. -/
structure JsError where
  status : Option Nat
  message : String

/-- `loadConfig` from `app/syncFork.js`.  `fetchResp` stands for the
`repos.getContent` request (already base64-decoded on success), `parse` for
`yaml.load`.  YAML parse exceptions carry no HTTP `status` field, so they are
plain messages; the `catch` block's `error.status === 404` test therefore only
ever fires for the fetch.  A 404 yields JS `null` (`JSValue.null`). -/
def loadConfig (fetchResp : Except JsError String)
    (parse : String → Except String JSValue) : Except String JSValue :=
  match fetchResp with
  | .error e =>
    if e.status = some 404 then .ok .null
    else .error ("Failed to load .omfg.yml: " ++ e.message)
  | .ok content =>
    match parse content with
    | .error m => .error ("Failed to load .omfg.yml: " ++ m)
    | .ok v => .ok v

/-! ## The sync engine -/

/-- One entry of the GitHub compare API's `commits` array; the source reads
`commit.sha` and `commit.commit.message`, flattened here to two fields. -/
structure Commit where
  sha : String
  message : String

/-- Payload of `repos.compareCommitsWithBasehead`. -/
structure CompareData where
  behind_by : Nat
  ahead_by : Nat
  status : String
  commits : List Commit

/-- Return value of `compareForkWithUpstream`. -/
structure Comparison where
  behind_by : Nat
  ahead_by : Nat
  status : String
  commits : List Commit
  base_branch : String

/-- Return value of `syncFork`; `commits_synced` is absent on the
already-up-to-date path. -/
structure SyncOutcome where
  success : Bool
  message : String
  commits_synced : Option Nat
deriving Repr, DecidableEq

/-- The configuration fields `syncFork` and its helpers read.  `none` is JS
`undefined` for the three optional fields. -/
structure Config where
  upstream : String
  create_pr : Option Bool
  pr_title : Option String
  pr_body : Option String

/-- The fork repository from `context.payload.repository`. -/
structure Repo where
  owner : String
  name : String

/-- A remote GitHub API call performed during a sync attempt, with the
arguments the source passes. -/
inductive RemoteCall where
  | reposGet (owner repo : String)
  | compareCommits (owner repo basehead : String)
  | getRef (owner repo ref : String)
  | createRef (owner repo ref sha : String)
  | updateRef (owner repo ref sha : String)
  | pullsCreate (owner repo title body head base : String)
deriving Repr, DecidableEq

/-- Pre-determined responses of the remote platform for one sync attempt,
plus `Date.now()`.  Each operation is invoked at most once per attempt. -/
structure Env where
  reposGetResp : Except String String
  compareResp : Except String CompareData
  getRefResp : Except String String
  createRefResp : Except String Unit
  updateRefResp : Except String Unit
  pullsCreateResp : Except String Nat
  now : Nat

/-- Does the call mutate remote state?  Ref creation, ref update and
pull-request creation do; repository metadata reads, comparisons and ref
reads do not. -/
def isMutation : RemoteCall → Bool
  | .createRef _ _ _ _ => true
  | .updateRef _ _ _ _ => true
  | .pullsCreate _ _ _ _ _ _ => true
  | _ => false

/-- Is the call a branch (ref) creation? -/
def isCreateRefCall : RemoteCall → Bool
  | .createRef _ _ _ _ => true
  | _ => false

/-- Is the call a ref update? -/
def isUpdateRefCall : RemoteCall → Bool
  | .updateRef _ _ _ _ => true
  | _ => false

/-- Is the call a pull-request creation? -/
def isPullsCreateCall : RemoteCall → Bool
  | .pullsCreate _ _ _ _ _ _ => true
  | _ => false

/-- JavaScript `String.prototype.split` with a single-character separator. -/
def charSplit (sep : Char) : List Char → List (List Char)
  | [] => [[]]
  | c :: rest =>
    if c = sep then [] :: charSplit sep rest
    else
      match charSplit sep rest with
      | [] => [[c]]
      | h :: t => (c :: h) :: t

/-- `const [upstreamOwner, upstreamRepo] = config.upstream.split('/')`.  A
missing second segment is JS `undefined`; it is modelled as the empty string,
unreachable for configurations that passed validation. -/
def splitUpstream (u : String) : String × String :=
  let parts := charSplit '/' u.data
  (⟨parts.headD []⟩, ⟨parts.getD 1 []⟩)

/-- JavaScript `a || b` where `a` is a string or `undefined`: the default is
used when the value is absent or the empty string. -/
def jsOr (v : Option String) (d : String) : String :=
  match v with
  | none => d
  | some s => if s = "" then d else s

/-- JavaScript `String.prototype.replace` with a string pattern: substitutes
the first occurrence only; the string is unchanged when the pattern does not
occur.  (The `$`-escape interpretation of the replacement text is not
modelled; no replacement value exercised here contains `$`.) -/
def replaceFirstL (pat rep : List Char) : List Char → List Char
  | [] => if leadsWith pat [] then rep else []
  | c :: rest =>
    if leadsWith pat (c :: rest) then rep ++ (c :: rest).drop pat.length
    else c :: replaceFirstL pat rep rest

/-- `replace` lifted to `String`. -/
def replaceFirstS (s pat rep : String) : String :=
  ⟨replaceFirstL pat.data rep.data s.data⟩

/-- One line of the commit list, from the source's arrow function:
`- ` then `commit.sha.substring(0, 7)` then `: ` then
`commit.commit.message.split('\n')[0]`. -/
def commitEntry (c : Commit) : String :=
  "- " ++ ⟨c.sha.data.take 7⟩ ++ ": " ++ ⟨(charSplit '\n' c.message.data).headD []⟩

/-- `Array.prototype.join('\n')`. -/
def joinNewline : List String → String
  | [] => ""
  | [s] => s
  | s :: rest => s ++ "\n" ++ joinNewline rest

/-- The `{commit_list}` value: commit entries joined with newlines. -/
def commitListString (commits : List Commit) : String :=
  joinNewline (commits.map commitEntry)

/-- The default `pr_body` template literal from the source. -/
def defaultPrBody : String :=
  "This PR automatically syncs changes from the upstream repository.\n\n**Upstream:** {upstream}\n**Branch:** {branch}\n**Commits behind:** {commits_behind}\n\n## Changes included:\n{commit_list}"

/-- The chained `.replace` calls applied to the body template. -/
def renderBody (template upstream : String) (cmp : Comparison) : String :=
  replaceFirstS
    (replaceFirstS
      (replaceFirstS
        (replaceFirstS template "{upstream}" upstream)
        "{branch}" cmp.base_branch)
      "{commits_behind}" (toString cmp.behind_by))
    "{commit_list}" (commitListString cmp.commits)

/-- `compareForkWithUpstream`: fetch the upstream's default branch, then the
basehead comparison; either failure is wrapped with the comparison prefix.
Returns the result together with the trace of remote calls issued. -/
def compareForkWithUpstream (env : Env) (fork : Repo) (config : Config) :
    Except String Comparison × List RemoteCall :=
  let uo := (splitUpstream config.upstream).1
  let ur := (splitUpstream config.upstream).2
  let q1 := RemoteCall.reposGet uo ur
  match env.reposGetResp with
  | .error m => (.error ("Failed to compare fork with upstream: " ++ m), [q1])
  | .ok baseBranch =>
    let q2 := RemoteCall.compareCommits uo ur
      (fork.owner ++ ":" ++ baseBranch ++ "..." ++ uo ++ ":" ++ baseBranch)
    match env.compareResp with
    | .error m =>
      (.error ("Failed to compare fork with upstream: " ++ m), [q1, q2])
    | .ok cd =>
      (.ok ⟨cd.behind_by, cd.ahead_by, cd.status, cd.commits, baseBranch⟩,
        [q1, q2])

/-- `createSyncPullRequest`: render title and body, resolve the upstream
branch ref, create the sync branch (named from `Date.now()`), open the PR.
Note the source renders only the body; `pr_title` is passed through
verbatim. -/
def createSyncPullRequest (env : Env) (fork : Repo) (config : Config)
    (cmp : Comparison) : Except String Nat × List RemoteCall :=
  let uo := (splitUpstream config.upstream).1
  let ur := (splitUpstream config.upstream).2
  let prTitle := jsOr config.pr_title "🔄 Auto-sync with upstream"
  let prBody := renderBody (jsOr config.pr_body defaultPrBody) config.upstream cmp
  let syncBranchName := "omfg-sync-" ++ toString env.now
  let q1 := RemoteCall.getRef uo ur ("heads/" ++ cmp.base_branch)
  match env.getRefResp with
  | .error m => (.error ("Failed to create sync pull request: " ++ m), [q1])
  | .ok sha =>
    let q2 := RemoteCall.createRef fork.owner fork.name
      ("refs/heads/" ++ syncBranchName) sha
    match env.createRefResp with
    | .error m =>
      (.error ("Failed to create sync pull request: " ++ m), [q1, q2])
    | .ok _ =>
      let q3 := RemoteCall.pullsCreate fork.owner fork.name prTitle prBody
        syncBranchName cmp.base_branch
      match env.pullsCreateResp with
      | .error m =>
        (.error ("Failed to create sync pull request: " ++ m), [q1, q2, q3])
      | .ok n => (.ok n, [q1, q2, q3])

/-- `performDirectSync`: resolve the upstream branch ref, then point the
fork's base branch at the same commit. -/
def performDirectSync (env : Env) (fork : Repo) (config : Config)
    (cmp : Comparison) : Except String Unit × List RemoteCall :=
  let uo := (splitUpstream config.upstream).1
  let ur := (splitUpstream config.upstream).2
  let q1 := RemoteCall.getRef uo ur ("heads/" ++ cmp.base_branch)
  match env.getRefResp with
  | .error m => (.error ("Failed to perform direct sync: " ++ m), [q1])
  | .ok sha =>
    let q2 := RemoteCall.updateRef fork.owner fork.name
      ("heads/" ++ cmp.base_branch) sha
    match env.updateRefResp with
    | .error m => (.error ("Failed to perform direct sync: " ++ m), [q1, q2])
    | .ok _ => (.ok (), [q1, q2])

/-- `syncFork`: compare, stop when the fork is up to date, otherwise run the
strategy selected by `config.create_pr !== false`.  Errors rethrown by the
source's `catch` propagate unchanged. -/
def syncFork (env : Env) (fork : Repo) (config : Config) :
    Except String SyncOutcome × List RemoteCall :=
  match compareForkWithUpstream env fork config with
  | (.error m, calls) => (.error m, calls)
  | (.ok cmp, calls) =>
    if cmp.behind_by = 0 then
      (.ok ⟨true, "Fork is already up to date", none⟩, calls)
    else
      let successOutcome : SyncOutcome :=
        ⟨true,
          "Successfully synced " ++ toString cmp.behind_by ++
            " commits from upstream",
          some cmp.behind_by⟩
      if config.create_pr != some false then
        match createSyncPullRequest env fork config cmp with
        | (.error m, calls2) => (.error m, calls ++ calls2)
        | (.ok _, calls2) => (.ok successOutcome, calls ++ calls2)
      else
        match performDirectSync env fork config cmp with
        | (.error m, calls2) => (.error m, calls ++ calls2)
        | (.ok _, calls2) => (.ok successOutcome, calls ++ calls2)

/-- The titles of the pull-request-create calls in a trace. -/
def prTitlesOf (calls : List RemoteCall) : List String :=
  calls.filterMap fun c =>
    match c with
    | .pullsCreate _ _ title _ _ _ => some title
    | _ => none

/-- The bodies of the pull-request-create calls in a trace. -/
def prBodiesOf (calls : List RemoteCall) : List String :=
  calls.filterMap fun c =>
    match c with
    | .pullsCreate _ _ _ body _ _ => some body
    | _ => none

/-- No opening-brace character occurs in the list, so no placeholder token
can begin inside it. -/
def braceFree (l : List Char) : Bool := l.all (fun c => c != '{')

/-- The four placeholder tokens the body rendering substitutes, in
substitution order. -/
def placeholderTokens : List (List Char) :=
  ["{upstream}".data, "{branch}".data, "{commits_behind}".data,
    "{commit_list}".data]

/-- The value substituted for a given placeholder token. -/
def tokenValue (T : List Char) (config : Config) (cmp : Comparison) : String :=
  if T = "{upstream}".data then config.upstream
  else if T = "{branch}".data then cmp.base_branch
  else if T = "{commits_behind}".data then toString cmp.behind_by
  else commitListString cmp.commits

/-! ## Structure of `validateConfig` on objects -/

/-- On any object input the validator's error list is exactly the
concatenation of the six independent per-check error lists, in source
order. -/
theorem validateConfig_obj_eq (fields : List (String × JSValue)) :
    validateConfig (.obj fields) =
      ⟨(allFieldErrs (.obj fields)).isEmpty, allFieldErrs (.obj fields)⟩ := by
  have step : ∀ (l : List String) (c : Bool) (m : String),
      (if c = true then l ++ [m] else l) = l ++ (if c = true then [m] else []) := by
    intro l c m
    cases c <;> simp
  have step2 : ∀ (l : List String) (c c' : Bool) (m m' : String),
      (if c = true then l ++ [m] else if c' = true then l ++ [m'] else l) =
        l ++ (if c = true then [m] else if c' = true then [m'] else []) := by
    intro l c c' m m'
    cases c <;> cases c' <;> simp
  simp only [validateConfig, allFieldErrs, autoSyncErrs, upstreamErrs,
    branchesErrs, createPrErrs, prTitleErrs, prBodyErrs]
  rw [show (!truthy (JSValue.obj fields) || typeofStr (JSValue.obj fields) != "object") = false
    from rfl]
  have factor : ∀ (l b d : List String) (c : Prop) (inst : Decidable c),
      (if c then l ++ b else l ++ d) = l ++ (if c then b else d) := by
    intro l b d c inst
    split <;> rfl
  simp only [step, step2, List.nil_append]
  simp [factor, List.append_assoc]

/-- The `valid` flag is always the emptiness of the error list, the non-object
guard included. -/
theorem validateConfig_valid_eq_isEmpty (v : JSValue) :
    (validateConfig v).valid = (validateConfig v).errors.isEmpty := by
  cases v <;> first | rfl | simp [validateConfig, truthy, typeofStr]

/-- Membership in a single-message conditional check list. -/
theorem mem_check_iff (m msg : String) (c : Bool) :
    m ∈ (if c = true then [msg] else ([] : List String)) ↔ c = true ∧ m = msg := by
  cases c <;> simp

/-! ## Claims about `validateConfig` -/

/-- **C6.** Every input that is not a structured object — `null`,
`undefined`, booleans, numbers, strings (arrays have JS `typeof "object"`
and pass the source's guard) — makes `validateConfig` return `valid = false`
with exactly the one error `"Configuration must be an object"`; no field
check contributes anything further. -/
theorem validateConfig_nonObject_single_error (v : JSValue)
    (h : isNonObjectValue v = true) :
    validateConfig v = ⟨false, ["Configuration must be an object"]⟩ := by
  cases v <;> simp_all [isNonObjectValue, validateConfig, truthy, typeofStr]

/-- Witness for `validateConfig_nonObject_single_error` at `null`. -/
theorem validateConfig_nonObject_single_error_witness :
    isNonObjectValue .null = true ∧
      validateConfig .null = ⟨false, ["Configuration must be an object"]⟩ :=
  ⟨rfl, validateConfig_nonObject_single_error .null rfl⟩

/-- **C7.** On every object configuration the error list is exactly the
concatenation of the six per-check error lists (so every applicable check
runs and appends independently even after another has failed); the `valid`
flag is true exactly when the error list is empty; and in particular a
configuration violating both the `auto_sync` check and the `upstream` type
check reports both errors together. -/
theorem validateConfig_checks_run_independently :
    (∀ fields : List (String × JSValue),
        (validateConfig (.obj fields)).errors = allFieldErrs (.obj fields)) ∧
      (∀ v : JSValue,
        (validateConfig v).valid = true ↔ (validateConfig v).errors = []) ∧
      ∀ fields : List (String × JSValue),
        typeofStr (getField (.obj fields) "auto_sync") ≠ "boolean" →
        truthy (getField (.obj fields) "upstream") = false ∨
          typeofStr (getField (.obj fields) "upstream") ≠ "string" →
        "auto_sync must be a boolean" ∈ (validateConfig (.obj fields)).errors ∧
          "upstream must be a string in format \"owner/repo\"" ∈
            (validateConfig (.obj fields)).errors := by
  refine ⟨fun fields => by rw [validateConfig_obj_eq], fun v => ?_, ?_⟩
  · rw [validateConfig_valid_eq_isEmpty]
    exact List.isEmpty_iff
  · intro fields h1 h2
    have h1' : (typeofStr (getField (.obj fields) "auto_sync") != "boolean") = true := by
      simpa [bne_iff_ne] using h1
    have h2' : (!truthy (getField (.obj fields) "upstream") ||
        typeofStr (getField (.obj fields) "upstream") != "string") = true := by
      rcases h2 with h | h <;> simp [h, bne_iff_ne]
    rw [validateConfig_obj_eq]
    simp [allFieldErrs, autoSyncErrs, upstreamErrs, h1', h2']

/-- Witness for `validateConfig_checks_run_independently`: a configuration
with a string `auto_sync` and no `upstream` reports both errors. -/
theorem validateConfig_checks_run_independently_witness :
    "auto_sync must be a boolean" ∈
        (validateConfig (.obj [("auto_sync", .str "yes")])).errors ∧
      "upstream must be a string in format \"owner/repo\"" ∈
        (validateConfig (.obj [("auto_sync", .str "yes")])).errors :=
  validateConfig_checks_run_independently.2.2 [("auto_sync", .str "yes")]
    (by decide) (Or.inl (by decide))

/-- **C5 (counterexample).** The upstream value `"/"` contains the separator
but splits into two empty segments; the claim demands the
`"upstream must be in format \"owner/repo\""` error, yet the validator,
which only tests `includes('/')`, accepts the configuration with no
errors. -/
theorem validateConfig_upstream_slash_counterexample :
    getField (.obj [("auto_sync", .bool true), ("upstream", .str "/")])
        "upstream" = .str "/" ∧
      charSplit '/' "/".data = [[], []] ∧
      "upstream must be in format \"owner/repo\"" ∉
        (validateConfig
          (.obj [("auto_sync", .bool true), ("upstream", .str "/")])).errors ∧
      validateConfig (.obj [("auto_sync", .bool true), ("upstream", .str "/")]) =
        ⟨true, []⟩ :=
  ⟨rfl, by decide, by decide, by decide⟩

/-- **C5 (amended).** Absent, falsy (including empty-string) or non-string
`upstream` yields the "must be a string" error and not the format error; a
non-empty string without `'/'` yields the format error and not the type
error; any string containing `'/'` passes both upstream checks, regardless
of whether the separator splits it into non-empty segments. -/
theorem validateConfig_upstream_errors (fields : List (String × JSValue)) :
    (truthy (getField (.obj fields) "upstream") = false ∨
        typeofStr (getField (.obj fields) "upstream") ≠ "string" →
      "upstream must be a string in format \"owner/repo\"" ∈
          (validateConfig (.obj fields)).errors ∧
        "upstream must be in format \"owner/repo\"" ∉
          (validateConfig (.obj fields)).errors) ∧
    (∀ s : String, getField (.obj fields) "upstream" = .str s → s ≠ "" →
      jsIncludes s "/" = false →
      "upstream must be in format \"owner/repo\"" ∈
          (validateConfig (.obj fields)).errors ∧
        "upstream must be a string in format \"owner/repo\"" ∉
          (validateConfig (.obj fields)).errors) ∧
    (∀ s : String, getField (.obj fields) "upstream" = .str s →
      jsIncludes s "/" = true →
      "upstream must be a string in format \"owner/repo\"" ∉
          (validateConfig (.obj fields)).errors ∧
        "upstream must be in format \"owner/repo\"" ∉
          (validateConfig (.obj fields)).errors) := by
  rw [validateConfig_obj_eq]
  refine ⟨fun h => ?_, fun s hs hne hsl => ?_, fun s hs hsl => ?_⟩
  · have h' : (!truthy (getField (.obj fields) "upstream") ||
        typeofStr (getField (.obj fields) "upstream") != "string") = true := by
      rcases h with h | h <;> simp [h, bne_iff_ne]
    simp [allFieldErrs, autoSyncErrs, upstreamErrs, branchesErrs, createPrErrs,
      prTitleErrs, prBodyErrs, h', mem_check_iff]
  · have h2 : (!truthy (getField (.obj fields) "upstream") ||
        typeofStr (getField (.obj fields) "upstream") != "string") = false := by
      simp [hs, truthy, typeofStr, hne]
    have h3 : (!upstreamHasSlash (getField (.obj fields) "upstream")) = true := by
      simp [hs, upstreamHasSlash, hsl]
    simp [allFieldErrs, autoSyncErrs, upstreamErrs, branchesErrs, createPrErrs,
      prTitleErrs, prBodyErrs, h2, h3, mem_check_iff]
  · have hne : s ≠ "" := by
      intro e
      subst e
      simp [jsIncludes, hasPat, leadsWith] at hsl
    have h2 : (!truthy (getField (.obj fields) "upstream") ||
        typeofStr (getField (.obj fields) "upstream") != "string") = false := by
      simp [hs, truthy, typeofStr, hne]
    have h3 : (!upstreamHasSlash (getField (.obj fields) "upstream")) = false := by
      simp [hs, upstreamHasSlash, hsl]
    simp [allFieldErrs, autoSyncErrs, upstreamErrs, branchesErrs, createPrErrs,
      prTitleErrs, prBodyErrs, h2, h3, mem_check_iff]

/-- Witness for `validateConfig_upstream_errors`: an `upstream` without a
separator fires exactly the format error. -/
theorem validateConfig_upstream_errors_witness :
    "upstream must be in format \"owner/repo\"" ∈
        (validateConfig (.obj [("upstream", .str "acmewidgets")])).errors ∧
      "upstream must be a string in format \"owner/repo\"" ∉
        (validateConfig (.obj [("upstream", .str "acmewidgets")])).errors :=
  (validateConfig_upstream_errors [("upstream", .str "acmewidgets")]).2.1
    "acmewidgets" rfl (by decide) (by decide)

/-- **C8 (counterexample).** A present `branches` key whose value is `false`
is not an array, yet the validator's `config.branches && ...` presence test
treats every falsy value as absent: no error is reported and the
configuration is accepted. -/
theorem validateConfig_branches_falsy_counterexample :
    getField
        (.obj [("auto_sync", .bool true), ("upstream", .str "a/b"),
          ("branches", .bool false)]) "branches" = .bool false ∧
      isArrayB (.bool false) = false ∧
      "branches must be an array" ∉
        (validateConfig
          (.obj [("auto_sync", .bool true), ("upstream", .str "a/b"),
            ("branches", .bool false)])).errors ∧
      validateConfig
          (.obj [("auto_sync", .bool true), ("upstream", .str "a/b"),
            ("branches", .bool false)]) = ⟨true, []⟩ :=
  ⟨rfl, rfl, by decide, by decide⟩

/-- **C8 (amended).** Whenever the `branches` value is truthy and not an
array, the `"branches must be an array"` error is reported; falsy values
(`null`, `false`, `0`, `""`) escape the check. -/
theorem validateConfig_branches_truthy_nonarray (fields : List (String × JSValue))
    (h1 : truthy (getField (.obj fields) "branches") = true)
    (h2 : isArrayB (getField (.obj fields) "branches") = false) :
    "branches must be an array" ∈ (validateConfig (.obj fields)).errors := by
  have hc : (truthy (getField (.obj fields) "branches") &&
      !isArrayB (getField (.obj fields) "branches")) = true := by
    simp [h1, h2]
  rw [validateConfig_obj_eq]
  simp [allFieldErrs, branchesErrs, hc]

/-- Witness for `validateConfig_branches_truthy_nonarray`: a string-valued
`branches` is rejected. -/
theorem validateConfig_branches_truthy_nonarray_witness :
    "branches must be an array" ∈
      (validateConfig (.obj [("branches", .str "main")])).errors :=
  validateConfig_branches_truthy_nonarray [("branches", .str "main")]
    (by decide) (by decide)

/-! ## Claims about `loadConfig` -/

/-- **C9.** A not-found (HTTP 404) response from the content fetch makes
`loadConfig` return JS `null`; every other fetch failure and every parse
failure surfaces as an error whose message is the original failure's message
behind the `Failed to load .omfg.yml: ` prefix; and a `null` result can only
arise from a 404 fetch response. -/
theorem loadConfig_notFound_and_errors (fetchResp : Except JsError String)
    (parse : String → Except String JSValue) :
    (∀ e : JsError, fetchResp = .error e → e.status = some 404 →
      loadConfig fetchResp parse = .ok .null) ∧
    (∀ e : JsError, fetchResp = .error e → e.status ≠ some 404 →
      loadConfig fetchResp parse =
        .error ("Failed to load .omfg.yml: " ++ e.message)) ∧
    (∀ (c : String) (m : String), fetchResp = .ok c → parse c = .error m →
      loadConfig fetchResp parse =
        .error ("Failed to load .omfg.yml: " ++ m)) ∧
    (∀ e : JsError, fetchResp = .error e →
      loadConfig fetchResp parse = .ok .null → e.status = some 404) := by
  refine ⟨?_, ?_, ?_, ?_⟩
  · intro e he h404
    subst he
    simp [loadConfig, h404]
  · intro e he hne
    subst he
    simp [loadConfig, hne]
  · intro c m hc hm
    subst hc
    simp [loadConfig, hm]
  · intro e he hnull
    subst he
    by_cases h : e.status = some 404
    · exact h
    · simp [loadConfig, h] at hnull

/-- Witness for `loadConfig_notFound_and_errors`: a 404 fetch yields
`null`. -/
theorem loadConfig_notFound_and_errors_witness :
    loadConfig (.error ⟨some 404, "Not Found"⟩) (fun _ => .error "unused") =
      .ok .null :=
  (loadConfig_notFound_and_errors _ _).1 ⟨some 404, "Not Found"⟩ rfl rfl

/-! ## Claims about `syncFork` -/

/-- **C1.** Whenever the comparison reports `behind_by = 0`, `syncFork`
returns `{ success: true, message: "Fork is already up to date" }` and the
call trace contains no mutating remote call: no ref creation, no ref update,
no pull-request creation. -/
theorem syncFork_upToDate_no_mutation (env : Env) (fork : Repo)
    (config : Config) (db : String) (cd : CompareData)
    (h1 : env.reposGetResp = .ok db) (h2 : env.compareResp = .ok cd)
    (h0 : cd.behind_by = 0) :
    (syncFork env fork config).1 =
        .ok ⟨true, "Fork is already up to date", none⟩ ∧
      (syncFork env fork config).2.filter isMutation = [] := by
  simp [syncFork, compareForkWithUpstream, h1, h2, h0, isMutation]

/-- Witness for `syncFork_upToDate_no_mutation`. -/
theorem syncFork_upToDate_no_mutation_witness :
    (syncFork ⟨.ok "main", .ok ⟨0, 0, "identical", []⟩, .ok "s", .ok (),
          .ok (), .ok 1, 0⟩ ⟨"me", "fork"⟩
        ⟨"acme/widgets", none, none, none⟩).1 =
        .ok ⟨true, "Fork is already up to date", none⟩ ∧
      (syncFork ⟨.ok "main", .ok ⟨0, 0, "identical", []⟩, .ok "s", .ok (),
          .ok (), .ok 1, 0⟩ ⟨"me", "fork"⟩
        ⟨"acme/widgets", none, none, none⟩).2.filter isMutation = [] :=
  syncFork_upToDate_no_mutation _ _ _ "main" ⟨0, 0, "identical", []⟩
    rfl rfl rfl

/-- **C2.** With `create_pr` unset (PR strategy by default) and a comparison
`behind_by = N > 0`, a successful run performs exactly one branch-create call
and exactly one pull-request-create call, and returns success with
`commits_synced = N`. -/
theorem syncFork_pr_path_counts (env : Env) (fork : Repo) (config : Config)
    (db sha : String) (cd : CompareData) (k : Nat)
    (h1 : env.reposGetResp = .ok db) (h2 : env.compareResp = .ok cd)
    (hN : 0 < cd.behind_by) (hcp : config.create_pr = none)
    (h3 : env.getRefResp = .ok sha) (h4 : env.createRefResp = .ok ())
    (h5 : env.pullsCreateResp = .ok k) :
    (syncFork env fork config).1 =
        .ok ⟨true, "Successfully synced " ++ toString cd.behind_by ++
          " commits from upstream", some cd.behind_by⟩ ∧
      (syncFork env fork config).2.countP isCreateRefCall = 1 ∧
      (syncFork env fork config).2.countP isPullsCreateCall = 1 := by
  have hne : ¬cd.behind_by = 0 := Nat.pos_iff_ne_zero.mp hN
  simp [syncFork, compareForkWithUpstream, createSyncPullRequest, h1, h2, h3,
    h4, h5, hcp, hne, isCreateRefCall, isPullsCreateCall, List.countP_cons]

/-- Witness for `syncFork_pr_path_counts` at `behind_by = 5`. -/
theorem syncFork_pr_path_counts_witness :
    (syncFork ⟨.ok "main", .ok ⟨5, 0, "behind", []⟩, .ok "s", .ok (), .ok (),
          .ok 9, 3⟩ ⟨"me", "fork"⟩ ⟨"acme/widgets", none, none, none⟩).1 =
        .ok ⟨true, "Successfully synced 5 commits from upstream", some 5⟩ ∧
      (syncFork ⟨.ok "main", .ok ⟨5, 0, "behind", []⟩, .ok "s", .ok (), .ok (),
          .ok 9, 3⟩ ⟨"me", "fork"⟩
        ⟨"acme/widgets", none, none, none⟩).2.countP isCreateRefCall = 1 ∧
      (syncFork ⟨.ok "main", .ok ⟨5, 0, "behind", []⟩, .ok "s", .ok (), .ok (),
          .ok 9, 3⟩ ⟨"me", "fork"⟩
        ⟨"acme/widgets", none, none, none⟩).2.countP isPullsCreateCall = 1 :=
  syncFork_pr_path_counts _ _ _ "main" "s" ⟨5, 0, "behind", []⟩ 9
    rfl rfl (by decide) rfl rfl rfl rfl

/-- **C3.** With `create_pr: false` and a comparison `behind_by > 0`, a
successful run performs exactly one ref-update call, carrying exactly the
sha resolved from the upstream branch ref, and performs no branch-create and
no pull-request-create call. -/
theorem syncFork_direct_path (env : Env) (fork : Repo) (config : Config)
    (db sha : String) (cd : CompareData)
    (h1 : env.reposGetResp = .ok db) (h2 : env.compareResp = .ok cd)
    (hN : 0 < cd.behind_by) (hcp : config.create_pr = some false)
    (h3 : env.getRefResp = .ok sha) (h4 : env.updateRefResp = .ok ()) :
    (syncFork env fork config).1 =
        .ok ⟨true, "Successfully synced " ++ toString cd.behind_by ++
          " commits from upstream", some cd.behind_by⟩ ∧
      (syncFork env fork config).2.filter isUpdateRefCall =
        [.updateRef fork.owner fork.name ("heads/" ++ db) sha] ∧
      (syncFork env fork config).2.countP isPullsCreateCall = 0 ∧
      (syncFork env fork config).2.countP isCreateRefCall = 0 := by
  have hne : ¬cd.behind_by = 0 := Nat.pos_iff_ne_zero.mp hN
  simp [syncFork, compareForkWithUpstream, performDirectSync, h1, h2, h3, h4,
    hcp, hne, isUpdateRefCall, isCreateRefCall, isPullsCreateCall,
    List.countP_cons]

/-- Witness for `syncFork_direct_path` matching the spec scenario:
`behind_by = 5`, base branch `main`, `create_pr: false`. -/
theorem syncFork_direct_path_witness :
    (syncFork ⟨.ok "main", .ok ⟨5, 0, "behind", []⟩, .ok "abc123", .ok (),
          .ok (), .ok 9, 3⟩ ⟨"me", "widgets"⟩
        ⟨"acme/widgets", some false, none, none⟩).1 =
        .ok ⟨true, "Successfully synced 5 commits from upstream", some 5⟩ ∧
      (syncFork ⟨.ok "main", .ok ⟨5, 0, "behind", []⟩, .ok "abc123", .ok (),
          .ok (), .ok 9, 3⟩ ⟨"me", "widgets"⟩
        ⟨"acme/widgets", some false, none, none⟩).2.filter isUpdateRefCall =
        [.updateRef "me" "widgets" "heads/main" "abc123"] ∧
      (syncFork ⟨.ok "main", .ok ⟨5, 0, "behind", []⟩, .ok "abc123", .ok (),
          .ok (), .ok 9, 3⟩ ⟨"me", "widgets"⟩
        ⟨"acme/widgets", some false, none, none⟩).2.countP
        isPullsCreateCall = 0 ∧
      (syncFork ⟨.ok "main", .ok ⟨5, 0, "behind", []⟩, .ok "abc123", .ok (),
          .ok (), .ok 9, 3⟩ ⟨"me", "widgets"⟩
        ⟨"acme/widgets", some false, none, none⟩).2.countP
        isCreateRefCall = 0 :=
  syncFork_direct_path _ _ _ "main" "abc123" ⟨5, 0, "behind", []⟩
    rfl rfl (by decide) rfl rfl rfl

/-- **C4 (code bug).** The source never renders the title template: with
`pr_title: "Sync: {branch}"` and base branch `main`, the pull request is
created with the literal title `"Sync: {branch}"`, not `"Sync: main"` —
contrary to the spec and to the repository's own integration test, which
expects the substituted title. -/
theorem syncFork_title_unrendered :
    prTitlesOf (syncFork ⟨.ok "main",
          .ok ⟨1, 0, "behind", [⟨"abcdef0123", "Fix bug"⟩]⟩, .ok "sha1",
          .ok (), .ok (), .ok 7, 0⟩ ⟨"me", "widgets"⟩
        ⟨"acme/widgets", none, some "Sync: {branch}", none⟩).2 =
        ["Sync: {branch}"] ∧
      "Sync: {branch}" ≠ "Sync: main" :=
  ⟨by decide, by decide⟩

/-! ## First-occurrence structure of the template substitution -/

/-- Every list starts with itself up to a trailing remainder. -/
theorem leadsWith_self_append (p c : List Char) : leadsWith p (p ++ c) = true := by
  induction p with
  | nil => rfl
  | cons x xs ih => simp [leadsWith, ih]

/-- Dropping the length of a leading run removes exactly that run. -/
theorem drop_length_append (p c : List Char) : (p ++ c).drop p.length = c := by
  induction p with
  | nil => rfl
  | cons x xs ih => simp [ih]

/-- When the pattern starts the string, `replaceFirstL` substitutes there. -/
theorem replaceFirstL_leads (pat rep s : List Char)
    (h : leadsWith pat s = true) :
    replaceFirstL pat rep s = rep ++ s.drop pat.length := by
  cases s with
  | nil =>
    cases pat with
    | nil => simp [replaceFirstL, leadsWith]
    | cons p ps => simp [leadsWith] at h
  | cons x rest => simp [replaceFirstL, h]

/-- Substitution at an explicit leading occurrence. -/
theorem replaceFirstL_at_head (pat rep c : List Char) :
    replaceFirstL pat rep (pat ++ c) = rep ++ c := by
  rw [replaceFirstL_leads _ _ _ (leadsWith_self_append pat c),
    drop_length_append]

/-- A pattern with a known head character is a nonempty cons. -/
theorem head_brace_shape (pat : List Char) (hp : pat.head? = some '{') :
    ∃ pt, pat = '{' :: pt := by
  cases pat with
  | nil => simp at hp
  | cons a t =>
    simp at hp
    exact ⟨t, by rw [hp]⟩

/-- `braceFree` unfolds on a cons cell. -/
theorem braceFree_cons (x : Char) (xs : List Char) :
    braceFree (x :: xs) = ((x != '{') && braceFree xs) := rfl

/-- A brace-headed pattern cannot match while a brace-free run is being
traversed, so replacement skips over it. -/
theorem replaceFirstL_skip (pat rep a s : List Char)
    (ha : braceFree a = true) (hp : pat.head? = some '{') :
    replaceFirstL pat rep (a ++ s) = a ++ replaceFirstL pat rep s := by
  obtain ⟨pt, rfl⟩ := head_brace_shape pat hp
  induction a with
  | nil => simp
  | cons x xs ih =>
    rw [braceFree_cons, Bool.and_eq_true] at ha
    have hxne : x ≠ '{' := by simpa [bne_iff_ne] using ha.1
    have hbx : ('{' == x) = false := beq_eq_false_iff_ne.mpr (Ne.symm hxne)
    have hlw : leadsWith ('{' :: pt) (x :: (xs ++ s)) = false := by
      simp [leadsWith, hbx]
    simp [replaceFirstL, List.append_eq, hlw, ih ha.2]

/-- Occurrence search likewise skips a brace-free run. -/
theorem hasPat_skip (pat a s : List Char) (ha : braceFree a = true)
    (hp : pat.head? = some '{') :
    hasPat pat (a ++ s) = hasPat pat s := by
  obtain ⟨pt, rfl⟩ := head_brace_shape pat hp
  induction a with
  | nil => simp
  | cons x xs ih =>
    rw [braceFree_cons, Bool.and_eq_true] at ha
    have hxne : x ≠ '{' := by simpa [bne_iff_ne] using ha.1
    have hbx : ('{' == x) = false := beq_eq_false_iff_ne.mpr (Ne.symm hxne)
    have hlw : leadsWith ('{' :: pt) (x :: (xs ++ s)) = false := by
      simp [leadsWith, hbx]
    simp [hasPat, List.append_eq, hlw, ih ha.2]

/-- A brace-headed pattern never occurs in a brace-free string. -/
theorem hasPat_braceFree (pat a : List Char) (ha : braceFree a = true)
    (hp : pat.head? = some '{') : hasPat pat a = false := by
  obtain ⟨pt, rfl⟩ := head_brace_shape pat hp
  induction a with
  | nil => rfl
  | cons x xs ih =>
    rw [braceFree_cons, Bool.and_eq_true] at ha
    have hxne : x ≠ '{' := by simpa [bne_iff_ne] using ha.1
    have hbx : ('{' == x) = false := beq_eq_false_iff_ne.mpr (Ne.symm hxne)
    have hlw : leadsWith ('{' :: pt) (x :: xs) = false := by
      simp [leadsWith, hbx]
    simp [hasPat, hlw, ih ha.2]

/-- Replacement is the identity when the pattern does not occur. -/
theorem replaceFirstL_noop (pat rep s : List Char)
    (h : hasPat pat s = false) : replaceFirstL pat rep s = s := by
  induction s with
  | nil =>
    simp only [hasPat] at h
    simp [replaceFirstL, h]
  | cons x rest ih =>
    simp only [hasPat, Bool.or_eq_false_iff] at h
    simp [replaceFirstL, h.1, ih h.2]

/-- A match on a compound string restricted to a long-enough leading part. -/
theorem leadsWith_of_append_le (p q X : List Char)
    (h : leadsWith p (q ++ X) = true) (hl : p.length ≤ q.length) :
    leadsWith p q = true := by
  induction p generalizing q with
  | nil => rfl
  | cons x xs ih =>
    cases q with
    | nil => simp at hl
    | cons y ys =>
      simp only [List.cons_append, leadsWith, Bool.and_eq_true] at h ⊢
      exact ⟨h.1, ih ys h.2 (by simpa using hl)⟩

/-- A match on a compound string whose leading part is shorter makes the
leading part a prefix of the pattern. -/
theorem leadsWith_rev_of_append (p q X : List Char)
    (h : leadsWith p (q ++ X) = true) (hl : q.length ≤ p.length) :
    leadsWith q p = true := by
  induction q generalizing p with
  | nil => rfl
  | cons y ys ih =>
    cases p with
    | nil => simp at hl
    | cons x xs =>
      simp only [List.cons_append, leadsWith, Bool.and_eq_true] at h ⊢
      exact ⟨beq_iff_eq.mpr (beq_iff_eq.mp h.1).symm,
        ih xs h.2 (by simpa using hl)⟩

/-- Two patterns neither of which starts the other cannot match at the same
position, whatever follows. -/
theorem leadsWith_append_false (pat T X : List Char)
    (hA : leadsWith pat T = false) (hB : leadsWith T pat = false) :
    leadsWith pat (T ++ X) = false := by
  cases h : leadsWith pat (T ++ X) with
  | false => rfl
  | true =>
    exfalso
    rcases Nat.le_total pat.length T.length with hl | hl
    · rw [leadsWith_of_append_le _ _ _ h hl] at hA
      exact Bool.noConfusion hA
    · rw [leadsWith_rev_of_append _ _ _ h hl] at hB
      exact Bool.noConfusion hB

/-- A brace-headed pattern distinct from the token `T` occurs in `T ++ s`
only if it occurs in `s`: the only brace inside `T` is its head, and the
pattern does not match there. -/
theorem hasPat_token_append (pat T s : List Char)
    (hp : pat.head? = some '{') (hT : T.head? = some '{')
    (hTt : braceFree T.tail = true)
    (hA : leadsWith pat T = false) (hB : leadsWith T pat = false)
    (hs : hasPat pat s = false) : hasPat pat (T ++ s) = false := by
  obtain ⟨Tt, rfl⟩ := head_brace_shape T hT
  have hTt' : braceFree Tt = true := hTt
  have h1 : leadsWith pat (('{' :: Tt) ++ s) = false :=
    leadsWith_append_false pat ('{' :: Tt) s hA hB
  rw [List.cons_append] at h1
  show hasPat pat ('{' :: (Tt ++ s)) = false
  simp [hasPat, h1, hasPat_skip pat Tt s hTt' hp, hs]

/-- No occurrence of `pat` anywhere in `x ++ T ++ c` when `x` and `c` are
brace-free and `pat` is a different token from `T`. -/
theorem hasPat_around_token (pat T x c : List Char)
    (hp : pat.head? = some '{') (hT : T.head? = some '{')
    (hTt : braceFree T.tail = true)
    (hA : leadsWith pat T = false) (hB : leadsWith T pat = false)
    (hx : braceFree x = true) (hc : braceFree c = true) :
    hasPat pat (x ++ (T ++ c)) = false := by
  rw [hasPat_skip pat x (T ++ c) hx hp]
  exact hasPat_token_append pat T c hp hT hTt hA hB
    (hasPat_braceFree pat c hc hp)

/-- No occurrence of `pat` in `a ++ v ++ b ++ T ++ c` with brace-free
`a`, `v`, `b`, `c`. -/
theorem hasPat_around_token4 (pat T a v b c : List Char)
    (hp : pat.head? = some '{') (hT : T.head? = some '{')
    (hTt : braceFree T.tail = true)
    (hA : leadsWith pat T = false) (hB : leadsWith T pat = false)
    (ha : braceFree a = true) (hv : braceFree v = true)
    (hb : braceFree b = true) (hc : braceFree c = true) :
    hasPat pat (a ++ (v ++ (b ++ (T ++ c)))) = false := by
  rw [hasPat_skip pat a _ ha hp, hasPat_skip pat v _ hv hp]
  exact hasPat_around_token pat T b c hp hT hTt hA hB hb hc

/-- No occurrence of `pat` in `a ++ T ++ b ++ T ++ c` when `pat` is a
different token from `T`. -/
theorem hasPat_around_two_tokens (pat T a b c : List Char)
    (hp : pat.head? = some '{') (hT : T.head? = some '{')
    (hTt : braceFree T.tail = true)
    (hA : leadsWith pat T = false) (hB : leadsWith T pat = false)
    (ha : braceFree a = true) (hb : braceFree b = true)
    (hc : braceFree c = true) :
    hasPat pat (a ++ (T ++ (b ++ (T ++ c)))) = false := by
  rw [hasPat_skip pat a _ ha hp]
  exact hasPat_token_append pat T (b ++ (T ++ c)) hp hT hTt hA hB
    (hasPat_around_token pat T b c hp hT hTt hA hB hb hc)

/-- Replacing token `T` in `a ++ T ++ rest` with brace-free `a` substitutes
exactly at the marked occurrence and preserves `rest` verbatim. -/
theorem replaceFirstL_two_tokens (T v a rest : List Char)
    (ha : braceFree a = true) (hT : T.head? = some '{') :
    replaceFirstL T v (a ++ (T ++ rest)) = a ++ (v ++ rest) := by
  rw [replaceFirstL_skip T v a (T ++ rest) ha hT, replaceFirstL_at_head]

/-- Unfolding `String.mk` back to its character list. -/
theorem data_mk (l : List Char) : (⟨l⟩ : String).data = l := rfl

/-- A string holding a brace-headed token is nonempty. -/
theorem mk_append_token_ne_empty (a T rest : List Char)
    (hT : T.head? = some '{') : (⟨a ++ (T ++ rest)⟩ : String) ≠ "" := by
  obtain ⟨Tt, rfl⟩ := head_brace_shape T hT
  intro h
  have h' := congrArg String.data h
  rw [data_mk, show ("" : String).data = [] from rfl] at h'
  simp at h'

/-- Full rendering of a template holding `{upstream}` twice. -/
theorem renderData_upstream (u brv nv clv a b c : List Char)
    (ha : braceFree a = true) (hb : braceFree b = true)
    (hc : braceFree c = true) (hu : braceFree u = true) :
    replaceFirstL "{commit_list}".data clv
      (replaceFirstL "{commits_behind}".data nv
        (replaceFirstL "{branch}".data brv
          (replaceFirstL "{upstream}".data u
            (a ++ ("{upstream}".data ++ (b ++ ("{upstream}".data ++ c))))))) =
      a ++ (u ++ (b ++ ("{upstream}".data ++ c))) := by
  rw [replaceFirstL_two_tokens _ _ _ _ ha (by decide)]
  rw [replaceFirstL_noop _ _ _ (hasPat_around_token4 "{branch}".data
    "{upstream}".data a u b c (by decide) (by decide) (by decide) (by decide)
    (by decide) ha hu hb hc)]
  rw [replaceFirstL_noop _ _ _ (hasPat_around_token4 "{commits_behind}".data
    "{upstream}".data a u b c (by decide) (by decide) (by decide) (by decide)
    (by decide) ha hu hb hc)]
  rw [replaceFirstL_noop _ _ _ (hasPat_around_token4 "{commit_list}".data
    "{upstream}".data a u b c (by decide) (by decide) (by decide) (by decide)
    (by decide) ha hu hb hc)]

/-- Full rendering of a template holding `{branch}` twice. -/
theorem renderData_branch (u brv nv clv a b c : List Char)
    (ha : braceFree a = true) (hb : braceFree b = true)
    (hc : braceFree c = true) (hbrv : braceFree brv = true) :
    replaceFirstL "{commit_list}".data clv
      (replaceFirstL "{commits_behind}".data nv
        (replaceFirstL "{branch}".data brv
          (replaceFirstL "{upstream}".data u
            (a ++ ("{branch}".data ++ (b ++ ("{branch}".data ++ c))))))) =
      a ++ (brv ++ (b ++ ("{branch}".data ++ c))) := by
  rw [replaceFirstL_noop _ _ _ (hasPat_around_two_tokens "{upstream}".data
    "{branch}".data a b c (by decide) (by decide) (by decide) (by decide)
    (by decide) ha hb hc)]
  rw [replaceFirstL_two_tokens _ _ _ _ ha (by decide)]
  rw [replaceFirstL_noop _ _ _ (hasPat_around_token4 "{commits_behind}".data
    "{branch}".data a brv b c (by decide) (by decide) (by decide) (by decide)
    (by decide) ha hbrv hb hc)]
  rw [replaceFirstL_noop _ _ _ (hasPat_around_token4 "{commit_list}".data
    "{branch}".data a brv b c (by decide) (by decide) (by decide) (by decide)
    (by decide) ha hbrv hb hc)]

/-- Full rendering of a template holding `{commits_behind}` twice. -/
theorem renderData_commits_behind (u brv nv clv a b c : List Char)
    (ha : braceFree a = true) (hb : braceFree b = true)
    (hc : braceFree c = true) (hnv : braceFree nv = true) :
    replaceFirstL "{commit_list}".data clv
      (replaceFirstL "{commits_behind}".data nv
        (replaceFirstL "{branch}".data brv
          (replaceFirstL "{upstream}".data u
            (a ++ ("{commits_behind}".data ++
              (b ++ ("{commits_behind}".data ++ c))))))) =
      a ++ (nv ++ (b ++ ("{commits_behind}".data ++ c))) := by
  rw [replaceFirstL_noop _ _ _ (hasPat_around_two_tokens "{upstream}".data
    "{commits_behind}".data a b c (by decide) (by decide) (by decide)
    (by decide) (by decide) ha hb hc)]
  rw [replaceFirstL_noop _ _ _ (hasPat_around_two_tokens "{branch}".data
    "{commits_behind}".data a b c (by decide) (by decide) (by decide)
    (by decide) (by decide) ha hb hc)]
  rw [replaceFirstL_two_tokens _ _ _ _ ha (by decide)]
  rw [replaceFirstL_noop _ _ _ (hasPat_around_token4 "{commit_list}".data
    "{commits_behind}".data a nv b c (by decide) (by decide) (by decide)
    (by decide) (by decide) ha hnv hb hc)]

/-- Full rendering of a template holding `{commit_list}` twice. -/
theorem renderData_commit_list (u brv nv clv a b c : List Char)
    (ha : braceFree a = true) (hb : braceFree b = true)
    (hc : braceFree c = true) :
    replaceFirstL "{commit_list}".data clv
      (replaceFirstL "{commits_behind}".data nv
        (replaceFirstL "{branch}".data brv
          (replaceFirstL "{upstream}".data u
            (a ++ ("{commit_list}".data ++
              (b ++ ("{commit_list}".data ++ c))))))) =
      a ++ (clv ++ (b ++ ("{commit_list}".data ++ c))) := by
  rw [replaceFirstL_noop _ _ _ (hasPat_around_two_tokens "{upstream}".data
    "{commit_list}".data a b c (by decide) (by decide) (by decide)
    (by decide) (by decide) ha hb hc)]
  rw [replaceFirstL_noop _ _ _ (hasPat_around_two_tokens "{branch}".data
    "{commit_list}".data a b c (by decide) (by decide) (by decide)
    (by decide) (by decide) ha hb hc)]
  rw [replaceFirstL_noop _ _ _ (hasPat_around_two_tokens "{commits_behind}".data
    "{commit_list}".data a b c (by decide) (by decide) (by decide)
    (by decide) (by decide) ha hb hc)]
  rw [replaceFirstL_two_tokens _ _ _ _ ha (by decide)]

/-- **C10.** Each of the four placeholders is substituted only at its first
occurrence: for a body template carrying the same placeholder token `T`
twice (with no stray brace elsewhere, and placeholder-free substitution
values), the created pull request's body replaces the first `T` with its
value and keeps the second `T` — and everything after the first occurrence —
literally. -/
theorem createSyncPullRequest_body_first_occurrence (T : List Char)
    (hTmem : T ∈ placeholderTokens) (env : Env) (fork : Repo)
    (config : Config) (cmp : Comparison) (sha : String) (k : Nat)
    (a b c : List Char)
    (h3 : env.getRefResp = .ok sha) (h4 : env.createRefResp = .ok ())
    (h5 : env.pullsCreateResp = .ok k)
    (hbody : config.pr_body = some ⟨a ++ (T ++ (b ++ (T ++ c)))⟩)
    (ha : braceFree a = true) (hb : braceFree b = true)
    (hc : braceFree c = true)
    (hu : braceFree config.upstream.data = true)
    (hbr : braceFree cmp.base_branch.data = true)
    (hn : braceFree (toString cmp.behind_by).data = true)
    (hcl : braceFree (commitListString cmp.commits).data = true) :
    prBodiesOf (createSyncPullRequest env fork config cmp).2 =
      [⟨a ++ ((tokenValue T config cmp).data ++ (b ++ (T ++ c)))⟩] := by
  simp only [placeholderTokens, List.mem_cons, List.not_mem_nil,
    or_false] at hTmem
  have hne : (⟨a ++ (T ++ (b ++ (T ++ c)))⟩ : String) ≠ "" := by
    rcases hTmem with rfl | rfl | rfl | rfl <;>
      exact mk_append_token_ne_empty _ _ _ (by decide)
  simp only [createSyncPullRequest, h3, h4, h5, hbody, jsOr, prBodiesOf,
    List.filterMap, renderBody, replaceFirstS, data_mk, if_neg hne]
  rcases hTmem with rfl | rfl | rfl | rfl
  · rw [show tokenValue "{upstream}".data config cmp = config.upstream
      from rfl]
    exact congrArg (fun l => [String.mk l])
      (renderData_upstream config.upstream.data cmp.base_branch.data
        (toString cmp.behind_by).data (commitListString cmp.commits).data
        a b c ha hb hc hu)
  · rw [show tokenValue "{branch}".data config cmp = cmp.base_branch
      from rfl]
    exact congrArg (fun l => [String.mk l])
      (renderData_branch config.upstream.data cmp.base_branch.data
        (toString cmp.behind_by).data (commitListString cmp.commits).data
        a b c ha hb hc hbr)
  · rw [show tokenValue "{commits_behind}".data config cmp =
      toString cmp.behind_by from rfl]
    exact congrArg (fun l => [String.mk l])
      (renderData_commits_behind config.upstream.data cmp.base_branch.data
        (toString cmp.behind_by).data (commitListString cmp.commits).data
        a b c ha hb hc hn)
  · rw [show tokenValue "{commit_list}".data config cmp =
      commitListString cmp.commits from rfl]
    exact congrArg (fun l => [String.mk l])
      (renderData_commit_list config.upstream.data cmp.base_branch.data
        (toString cmp.behind_by).data (commitListString cmp.commits).data
        a b c ha hb hc)

/-- Witness for `createSyncPullRequest_body_first_occurrence`: the template
`"Hello {branch} and {branch}!"` renders to `"Hello main and {branch}!"` —
the second occurrence survives verbatim. -/
theorem createSyncPullRequest_body_first_occurrence_witness :
    prBodiesOf (createSyncPullRequest
        ⟨.ok "main", .ok ⟨2, 0, "behind", []⟩, .ok "sha", .ok (), .ok (),
          .ok 1, 0⟩ ⟨"me", "widgets"⟩
        ⟨"acme/widgets", none, none, some "Hello {branch} and {branch}!"⟩
        ⟨2, 0, "behind", [], "main"⟩).2 =
      ["Hello main and {branch}!"] := by
  have h := createSyncPullRequest_body_first_occurrence "{branch}".data
    (by decide)
    ⟨.ok "main", .ok ⟨2, 0, "behind", []⟩, .ok "sha", .ok (), .ok (),
      .ok 1, 0⟩ ⟨"me", "widgets"⟩
    ⟨"acme/widgets", none, none, some "Hello {branch} and {branch}!"⟩
    ⟨2, 0, "behind", [], "main"⟩ "sha" 1
    "Hello ".data " and ".data "!".data rfl rfl rfl (by decide) (by decide)
    (by decide) (by decide) (by decide) (by decide) (by decide) (by decide)
  rw [h]
  decide

end OMFG
